import Mathlib

/-!
Verification of the fake-data generator (`src/main.py`) against its
natural-language specification.

The program has two components:

* `generate_data_pandas` (lines 12-50): validates the requested record
  count, optionally prints a soft-limit advisory, then builds a list of
  records whose `ID` field is drawn from the process-global Faker
  unique-value allocator `fake.unique.random_int(min=100000, max=999999)`;
  any failure inside the loop is wrapped into a `RuntimeError` carrying
  the original cause.
* `save_all_formats` (lines 53-92): creates the output directory (with
  intermediate directories, idempotently), then sequentially writes a
  CSV file (with BOM), a JSON records file and a plain-text table; an
  `OSError` is re-raised as `OSError` ("StorageError" in the spec's
  taxonomy) and any other exception as `RuntimeError` ("ExportError").

The Faker library's randomness is modelled by an abstract pick strategy
for the unique-id allocator (any function that returns a fresh in-range
value while one exists and signals exhaustion otherwise — exactly the
allocator contract the library documents) and by an oracle supplying the
non-unique string fields.  The process-global allocator state (the set of
already issued ids held by the module-level `fake` object) is threaded
explicitly through the embedding.
-/

namespace FakeDataGen

/-- One generated record, fields in the order of the dict literal built in
`generate_data_pandas` (src/main.py lines 33-42). -/
structure Record where
  id : Nat
  name : String
  company : String
  job_title : String
  email : String
  ip_address : String
  registration_date : String
  description : String
deriving DecidableEq

/-- Lower bound of the identifier range: `random_int(min=100000, ...)`. -/
def ID_MIN : Nat := 100000

/-- Upper bound of the identifier range: `random_int(..., max=999999)`. -/
def ID_MAX : Nat := 999999

/-- The soft-limit threshold of the advisory at src/main.py line 27. -/
def SOFT_LIMIT : Int := 900000

/-- The raw exception the Faker library raises when the unique pool for the
requested range is exhausted. -/
inductive FakerError where
  | uniquenessException
deriving DecidableEq

/-- Errors raised by `generate_data_pandas`: `ValueError` for an invalid
count (the spec's ValidationError) and `RuntimeError` wrapping an
underlying synthesis failure (the spec's GenerationError, carrying the
original cause, src/main.py lines 43-44). -/
inductive GenErr where
  | valueError (msg : String)
  | generationError (cause : FakerError)
deriving DecidableEq

/-- A pick strategy abstracting the randomness of
`fake.unique.random_int(min, max)`: given the set of already issued values
and the inclusive range, it yields the value drawn, or `none` on
exhaustion. -/
def Pick : Type := Finset Nat → Nat → Nat → Option Nat

/-- The allocator contract of `fake.unique.random_int`: a drawn value lies
in the inclusive range and was never issued before, and the draw fails
only when the whole range is already issued. -/
def ValidPick (pick : Pick) : Prop :=
  ∀ used lo hi,
    (∀ v, pick used lo hi = some v → v ∈ Finset.Icc lo hi ∧ v ∉ used) ∧
    (pick used lo hi = none → ∀ v ∈ Finset.Icc lo hi, v ∈ used)

/-- Oracle for the non-unique Faker fields (`fake.name()`, `fake.company()`,
`fake.job()`, `fake.email()`, `fake.ipv4()`,
`fake.date_this_decade().strftime`, `fake.text(max_nb_chars=100)`),
indexed by the iteration at which the call happens. -/
structure FieldSynth where
  name : Nat → String
  company : Nat → String
  job : Nat → String
  email : Nat → String
  ipv4 : Nat → String
  date_this_decade : Nat → String
  text : Nat → String

/-- Python's `s.replace('\n', ' ')` for the single-character pattern:
replace every newline by a space (src/main.py line 41). -/
def normalizeNewlines (s : String) : String :=
  ⟨s.data.map (fun c => if c = '\n' then ' ' else c)⟩

/-- The generation loop body of src/main.py lines 32-42: `n` more records
to build, `i` the index of the current iteration (feeding the field
oracle), `used` the allocator state.  Returns the records together with
the final allocator state; on exhaustion the raw library error and the
state consumed so far (the global pool keeps values issued before the
failure). -/
def genLoop (pick : Pick) (s : FieldSynth) :
    Nat → Nat → Finset Nat → Except FakerError (List Record) × Finset Nat
  | 0, _, used => (Except.ok [], used)
  | n + 1, i, used =>
    match pick used ID_MIN ID_MAX with
    | none => (Except.error FakerError.uniquenessException, used)
    | some v =>
      let r : Record :=
        ⟨v, s.name i, s.company i, s.job i, s.email i, s.ipv4 i,
          s.date_this_decade i, normalizeNewlines (s.text i)⟩
      match genLoop pick s n (i + 1) (insert v used) with
      | (Except.ok rs, used2) => (Except.ok (r :: rs), used2)
      | (Except.error e, used2) => (Except.error e, used2)

/-- Result of one call to `generate_data_pandas`: the console warnings it
printed, its outcome (the record list of the returned DataFrame, or the
raised error) and the allocator state of the global `fake` object after
the call. -/
structure GenResult where
  warnings : List String
  outcome : Except GenErr (List Record)
  state : Finset Nat

/-- The advisory printed at src/main.py line 28. -/
def warnMsg : String :=
  "⚠️  Внимание: при генерации более 900,000 записей могут возникнуть конфликты уникальных ID"

/-- The `ValueError` message of src/main.py line 25. -/
def valueErrMsg : String := "Количество записей должно быть больше 0"

/-- `generate_data_pandas(num_records)` (src/main.py lines 12-50), with the
pick strategy, field oracle and global allocator state made explicit.
Validates `num_records >= 1`, prints the soft-limit advisory for counts
above 900000, runs the loop, and wraps a loop failure into the
GenerationError carrying the original cause. -/
def generate_data_pandas (pick : Pick) (s : FieldSynth) (st : Finset Nat)
    (num_records : Int) : GenResult :=
  if num_records < 1 then
    ⟨[], Except.error (GenErr.valueError valueErrMsg), st⟩
  else
    let warnings := if num_records > 900000 then [warnMsg] else []
    match genLoop pick s num_records.toNat 0 st with
    | (Except.ok rs, st2) => ⟨warnings, Except.ok rs, st2⟩
    | (Except.error e, st2) => ⟨warnings, Except.error (GenErr.generationError e), st2⟩

/-! ### A concrete executable pick strategy, used for witnesses

`findFresh used cur fuel` scans `cur, cur+1, ...` (at most `fuel` values)
for the first value not yet issued; `leastPick` instantiates it to the
inclusive range, so it satisfies the allocator contract `ValidPick`. -/

/-- Linear scan for the first value not in `used`, starting at `cur`,
inspecting at most `fuel` candidates. -/
def findFresh (used : Finset Nat) : Nat → Nat → Option Nat
  | _, 0 => none
  | cur, fuel + 1 => if cur ∈ used then findFresh used (cur + 1) fuel else some cur

/-- Deterministic pick strategy: the least unissued value of the range. -/
def leastPick : Pick := fun used lo hi => findFresh used lo (hi + 1 - lo)

/-- A concrete field oracle for witnesses. -/
def synth0 : FieldSynth :=
  ⟨fun _ => "Иван", fun _ => "ООО Ромашка", fun _ => "Инженер",
    fun _ => "ivan@example.ru", fun _ => "192.168.0.1", fun _ => "2021-05-17",
    fun _ => "текст"⟩

/-- The outcome `generate_data_pandas` derives from its loop: the record
list on success, the wrapped GenerationError on a loop failure. -/
def loopOutcome (pick : Pick) (s : FieldSynth) (st : Finset Nat)
    (count : Int) : Except GenErr (List Record) :=
  match genLoop pick s count.toNat 0 st with
  | (Except.ok rs, _) => Except.ok rs
  | (Except.error e, _) => Except.error (GenErr.generationError e)

/-! ### Lemmas about the allocator and the generation loop -/

theorem findFresh_some (used : Finset Nat) :
    ∀ fuel cur v, findFresh used cur fuel = some v →
      cur ≤ v ∧ v < cur + fuel ∧ v ∉ used := by
  intro fuel
  induction fuel with
  | zero => intro cur v h; simp [findFresh] at h
  | succ n ih =>
    intro cur v h
    rw [findFresh] at h
    by_cases hc : cur ∈ used
    · rw [if_pos hc] at h
      obtain ⟨h1, h2, h3⟩ := ih (cur + 1) v h
      exact ⟨by omega, by omega, h3⟩
    · rw [if_neg hc] at h
      cases h
      exact ⟨Nat.le_refl _, by omega, hc⟩

theorem findFresh_none (used : Finset Nat) :
    ∀ fuel cur, findFresh used cur fuel = none →
      ∀ v, cur ≤ v → v < cur + fuel → v ∈ used := by
  intro fuel
  induction fuel with
  | zero => intro cur _ v hv1 hv2; omega
  | succ n ih =>
    intro cur h v hv1 hv2
    rw [findFresh] at h
    by_cases hc : cur ∈ used
    · rw [if_pos hc] at h
      rcases Nat.eq_or_lt_of_le hv1 with heq | hlt
      · exact heq ▸ hc
      · exact ih (cur + 1) h v hlt (by omega)
    · rw [if_neg hc] at h
      cases h

/-- The deterministic least-unissued pick satisfies the allocator
contract. -/
theorem leastPick_valid : ValidPick leastPick := by
  intro used lo hi
  constructor
  · intro v h
    obtain ⟨h1, h2, h3⟩ := findFresh_some used (hi + 1 - lo) lo v h
    exact ⟨Finset.mem_Icc.mpr ⟨h1, by omega⟩, h3⟩
  · intro h v hv
    obtain ⟨hv1, hv2⟩ := Finset.mem_Icc.mp hv
    exact findFresh_none used (hi + 1 - lo) lo h v hv1 (by omega)

/-- The identifier range holds exactly 900000 distinct values. -/
theorem card_id_range : (Finset.Icc ID_MIN ID_MAX).card = 900000 := by
  rw [Nat.card_Icc]
  rfl

/-- Invariants of a successful generation loop: it yields exactly `n`
records, their ids are pairwise distinct, in range, fresh with respect to
the initial allocator state and recorded in the final one, the allocator
pool only grows, and exactly `n` new in-range values are consumed. -/
theorem genLoop_ok (pick : Pick) (hp : ValidPick pick) (s : FieldSynth) :
    ∀ n i used rs used2,
      genLoop pick s n i used = (Except.ok rs, used2) →
      rs.length = n ∧
      (rs.map Record.id).Nodup ∧
      (∀ r ∈ rs, r.id ∈ Finset.Icc ID_MIN ID_MAX ∧ r.id ∉ used ∧ r.id ∈ used2) ∧
      (∀ v ∈ used, v ∈ used2) ∧
      (used2 ∩ Finset.Icc ID_MIN ID_MAX).card
        = (used ∩ Finset.Icc ID_MIN ID_MAX).card + n := by
  intro n
  induction n with
  | zero =>
    intro i used rs used2 h
    rw [genLoop] at h
    simp only [Prod.mk.injEq, Except.ok.injEq] at h
    obtain ⟨h1, h2⟩ := h
    subst h1
    subst h2
    exact ⟨rfl, List.nodup_nil, by simp, fun v hv => hv, by omega⟩
  | succ n ih =>
    intro i used rs used2 h
    rw [genLoop] at h
    cases hpick : pick used ID_MIN ID_MAX with
    | none => simp [hpick] at h
    | some v =>
      simp only [hpick] at h
      obtain ⟨hv_mem, hv_not⟩ := (hp used ID_MIN ID_MAX).1 v hpick
      cases hrec : genLoop pick s n (i + 1) (insert v used) with
      | mk res st2 =>
        rw [hrec] at h
        cases res with
        | error e => simp at h
        | ok rs2 =>
          simp only [Prod.mk.injEq, Except.ok.injEq] at h
          obtain ⟨hrs, hst⟩ := h
          subst hrs
          subst hst
          obtain ⟨ihlen, ihnd, ihmem, ihmono, ihcard⟩ :=
            ih (i + 1) (insert v used) rs2 _ hrec
          have hv_in2 := ihmono v (Finset.mem_insert_self v used)
          refine ⟨by simp [ihlen], ?_, ?_, ?_, ?_⟩
          · simp only [List.map_cons, List.nodup_cons]
            refine ⟨?_, ihnd⟩
            intro hmem
            obtain ⟨r2, hr2, hid⟩ := List.mem_map.mp hmem
            have := (ihmem r2 hr2).2.1
            rw [hid] at this
            exact this (Finset.mem_insert_self v used)
          · intro r hr
            rcases List.mem_cons.mp hr with heq | htl
            · subst heq
              exact ⟨hv_mem, hv_not, hv_in2⟩
            · obtain ⟨hIcc, hfresh, hin2⟩ := ihmem r htl
              exact ⟨hIcc, fun hmem => hfresh (Finset.mem_insert_of_mem hmem), hin2⟩
          · intro w hw
            exact ihmono w (Finset.mem_insert_of_mem hw)
          · have hinter : (insert v used) ∩ Finset.Icc ID_MIN ID_MAX
                = insert v (used ∩ Finset.Icc ID_MIN ID_MAX) :=
              Finset.insert_inter_of_mem hv_mem
            have hnotin : v ∉ used ∩ Finset.Icc ID_MIN ID_MAX := by
              simp [hv_not]
            rw [ihcard, hinter, Finset.card_insert_of_not_mem hnotin]
            omega

/-- When more records are requested than the identifier range has unissued
values, the generation loop fails with the raw uniqueness exception. -/
theorem genLoop_exhaust (pick : Pick) (hp : ValidPick pick) (s : FieldSynth) :
    ∀ n i used, 900000 < n + (used ∩ Finset.Icc ID_MIN ID_MAX).card →
      (genLoop pick s n i used).1 = Except.error FakerError.uniquenessException := by
  intro n
  induction n with
  | zero =>
    intro i used hbig
    exfalso
    have hle : (used ∩ Finset.Icc ID_MIN ID_MAX).card ≤ (Finset.Icc ID_MIN ID_MAX).card :=
      Finset.card_le_card Finset.inter_subset_right
    rw [card_id_range] at hle
    omega
  | succ n ih =>
    intro i used hbig
    rw [genLoop]
    cases hpick : pick used ID_MIN ID_MAX with
    | none => simp
    | some v =>
      obtain ⟨hv_mem, hv_not⟩ := (hp used ID_MIN ID_MAX).1 v hpick
      have hcard : ((insert v used) ∩ Finset.Icc ID_MIN ID_MAX).card
          = (used ∩ Finset.Icc ID_MIN ID_MAX).card + 1 := by
        rw [Finset.insert_inter_of_mem hv_mem,
          Finset.card_insert_of_not_mem (by simp [hv_not])]
      have herr := ih (i + 1) (insert v used) (by omega)
      cases hrec : genLoop pick s n (i + 1) (insert v used) with
      | mk res st2 =>
        rw [hrec] at herr
        simp only at herr
        subst herr
        simp [hrec]

/-- Unfolding of `generate_data_pandas` for a valid count: the advisory is
printed exactly above the 900000 threshold, and outcome and final state
come from the generation loop. -/
theorem generate_eq (pick : Pick) (s : FieldSynth) (st : Finset Nat)
    (count : Int) (h1 : 1 ≤ count) :
    generate_data_pandas pick s st count =
      ⟨if count > 900000 then [warnMsg] else [],
        loopOutcome pick s st count,
        (genLoop pick s count.toNat 0 st).2⟩ := by
  unfold generate_data_pandas loopOutcome
  rw [if_neg (by omega)]
  cases hrec : genLoop pick s count.toNat 0 st with
  | mk res st2 => cases res <;> simp

/-- Unfolding of `generate_data_pandas` for an invalid count: the
validation error, no records, no warnings, untouched allocator state. -/
theorem generate_invalid (pick : Pick) (s : FieldSynth) (st : Finset Nat)
    (count : Int) (h : count < 1) :
    generate_data_pandas pick s st count =
      ⟨[], Except.error (GenErr.valueError valueErrMsg), st⟩ := by
  unfold generate_data_pandas
  rw [if_pos h]

/-- Requesting more records than the unissued part of the identifier range
can supply makes `generate_data_pandas` fail with the wrapped uniqueness
error. -/
theorem generate_over_capacity (pick : Pick) (hp : ValidPick pick)
    (s : FieldSynth) (st : Finset Nat) (count : Int) (h1 : 1 ≤ count)
    (hover : 900000 < count.toNat + (st ∩ Finset.Icc ID_MIN ID_MAX).card) :
    (generate_data_pandas pick s st count).outcome =
      Except.error (GenErr.generationError FakerError.uniquenessException) := by
  rw [generate_eq pick s st count h1]
  simp only
  unfold loopOutcome
  have herr := genLoop_exhaust pick hp s count.toNat 0 st hover
  cases hrec : genLoop pick s count.toNat 0 st with
  | mk res st2 =>
    rw [hrec] at herr
    simp only at herr
    subst herr
    simp

/-- Everything a successful `generate_data_pandas` call guarantees: the
count was valid, exactly `count` records were produced, their ids are
pairwise distinct, in range, fresh for the initial allocator state and
recorded in the final one, the global pool only grows, and exactly
`count` in-range values were consumed. -/
theorem generate_ok_inv (pick : Pick) (hp : ValidPick pick) (s : FieldSynth)
    (st : Finset Nat) (count : Int) (rs : List Record)
    (hok : (generate_data_pandas pick s st count).outcome = Except.ok rs) :
    1 ≤ count ∧
    rs.length = count.toNat ∧
    (rs.map Record.id).Nodup ∧
    (∀ r ∈ rs, r.id ∈ Finset.Icc ID_MIN ID_MAX ∧ r.id ∉ st ∧
      r.id ∈ (generate_data_pandas pick s st count).state) ∧
    (∀ v ∈ st, v ∈ (generate_data_pandas pick s st count).state) ∧
    ((generate_data_pandas pick s st count).state ∩ Finset.Icc ID_MIN ID_MAX).card
      = (st ∩ Finset.Icc ID_MIN ID_MAX).card + count.toNat := by
  by_cases hlt : count < 1
  · rw [generate_invalid pick s st count hlt] at hok
    exact absurd hok (by simp)
  · have h1 : 1 ≤ count := by omega
    rw [generate_eq pick s st count h1] at hok ⊢
    simp only at hok ⊢
    unfold loopOutcome at hok
    cases hrec : genLoop pick s count.toNat 0 st with
    | mk res st2 =>
      rw [hrec] at hok
      cases res with
      | error e => simp at hok
      | ok rs2 =>
        simp only [Except.ok.injEq] at hok
        subst hok
        obtain ⟨hlen, hnd, hmem, hmono, hcard⟩ :=
          genLoop_ok pick hp s count.toNat 0 st rs2 st2 hrec
        exact ⟨h1, hlen, hnd, hmem, hmono, hcard⟩

/-- C1: for every count >= 1 for which generation completes without error,
`generate_data_pandas` returns a dataset of exactly `count` records whose
id values are pairwise distinct. -/
theorem C1_count_and_distinct_ids (pick : Pick) (hp : ValidPick pick)
    (s : FieldSynth) (st : Finset Nat) (count : Int) (h1 : 1 ≤ count)
    (rs : List Record)
    (hok : (generate_data_pandas pick s st count).outcome = Except.ok rs) :
    (rs.length : Int) = count ∧ (rs.map Record.id).Nodup := by
  obtain ⟨_, hlen, hnd, _⟩ := generate_ok_inv pick hp s st count rs hok
  exact ⟨by rw [hlen]; omega, hnd⟩

/-- Records returned by `generate_data_pandas leastPick synth0 ∅ 3`. -/
def c1rs : List Record :=
  [⟨100000, "Иван", "ООО Ромашка", "Инженер", "ivan@example.ru", "192.168.0.1", "2021-05-17", "текст"⟩,
    ⟨100001, "Иван", "ООО Ромашка", "Инженер", "ivan@example.ru", "192.168.0.1", "2021-05-17", "текст"⟩,
    ⟨100002, "Иван", "ООО Ромашка", "Инженер", "ivan@example.ru", "192.168.0.1", "2021-05-17", "текст"⟩]

/-- Witness for C1 at the concrete run `generate_data_pandas leastPick
synth0 ∅ 3`. -/
theorem C1_count_and_distinct_ids_witness :
    ValidPick leastPick ∧ 1 ≤ (3 : Int) ∧
    (generate_data_pandas leastPick synth0 ∅ 3).outcome = Except.ok c1rs ∧
    ((c1rs.length : Int) = 3 ∧ (c1rs.map Record.id).Nodup) :=
  ⟨leastPick_valid, by decide, rfl,
    C1_count_and_distinct_ids leastPick leastPick_valid synth0 ∅ 3 (by decide) c1rs rfl⟩

/-- C2: a request exceeding the remaining capacity of the identifier range
(in particular the full 900000-value capacity plus one) fails with the
GenerationError wrapping the raw uniqueness exception as its cause, and
returns no dataset at all. -/
theorem C2_exhaustion_generation_error (pick : Pick) (hp : ValidPick pick)
    (s : FieldSynth) (st : Finset Nat) (count : Int) (h1 : 1 ≤ count)
    (hover : 900000 < count.toNat + (st ∩ Finset.Icc ID_MIN ID_MAX).card) :
    (generate_data_pandas pick s st count).outcome =
      Except.error (GenErr.generationError FakerError.uniquenessException) ∧
    ∀ rs, (generate_data_pandas pick s st count).outcome ≠ Except.ok rs := by
  have h := generate_over_capacity pick hp s st count h1 hover
  refine ⟨h, ?_⟩
  intro rs hok
  rw [h] at hok
  exact Except.noConfusion hok

/-- Witness for C2 at count 900001 (full capacity plus one) from a fresh
allocator. -/
theorem C2_exhaustion_generation_error_witness :
    ValidPick leastPick ∧ 1 ≤ (900001 : Int) ∧
    900000 < (900001 : Int).toNat + ((∅ ∩ Finset.Icc ID_MIN ID_MAX).card) ∧
    ((generate_data_pandas leastPick synth0 ∅ 900001).outcome =
        Except.error (GenErr.generationError FakerError.uniquenessException) ∧
      ∀ rs, (generate_data_pandas leastPick synth0 ∅ 900001).outcome ≠ Except.ok rs) :=
  ⟨leastPick_valid, by decide, by simp,
    C2_exhaustion_generation_error leastPick leastPick_valid synth0 ∅ 900001
      (by decide) (by simp)⟩

/-- C3: for every count < 1 the call fails with the ValidationError
message before any synthesis: no records, no warnings, and the global
allocator state is untouched. -/
theorem C3_validation_error (pick : Pick) (s : FieldSynth) (st : Finset Nat)
    (count : Int) (h : count < 1) :
    generate_data_pandas pick s st count =
      ⟨[], Except.error (GenErr.valueError valueErrMsg), st⟩ :=
  generate_invalid pick s st count h

/-- Witness for C3 at counts 0 and -5. -/
theorem C3_validation_error_witness :
    (0 : Int) < 1 ∧ (-5 : Int) < 1 ∧
    generate_data_pandas leastPick synth0 ∅ 0 =
      ⟨[], Except.error (GenErr.valueError valueErrMsg), ∅⟩ ∧
    generate_data_pandas leastPick synth0 ∅ (-5) =
      ⟨[], Except.error (GenErr.valueError valueErrMsg), ∅⟩ :=
  ⟨by decide, by decide,
    C3_validation_error leastPick synth0 ∅ 0 (by decide),
    C3_validation_error leastPick synth0 ∅ (-5) (by decide)⟩

/-- C8: for every valid count strictly above the 900000 soft limit the
advisory is emitted and generation still proceeds (outcome and final
state are exactly those of the generation loop); at or below the
threshold no advisory is emitted. -/
theorem C8_soft_limit_advisory (pick : Pick) (s : FieldSynth) (st : Finset Nat)
    (count : Int) (h1 : 1 ≤ count) :
    (900000 < count → (generate_data_pandas pick s st count).warnings = [warnMsg]) ∧
    (count ≤ 900000 → (generate_data_pandas pick s st count).warnings = []) ∧
    (generate_data_pandas pick s st count).outcome = loopOutcome pick s st count ∧
    (generate_data_pandas pick s st count).state = (genLoop pick s count.toNat 0 st).2 := by
  rw [generate_eq pick s st count h1]
  refine ⟨?_, ?_, rfl, rfl⟩
  · intro hgt
    simp only
    rw [if_pos hgt]
  · intro hle
    simp only
    rw [if_neg (by omega)]

/-- Witness for C8 at count 900001, above the soft limit. -/
theorem C8_soft_limit_advisory_witness :
    1 ≤ (900001 : Int) ∧
    ((900000 < (900001 : Int) →
        (generate_data_pandas leastPick synth0 ∅ 900001).warnings = [warnMsg]) ∧
      ((900001 : Int) ≤ 900000 →
        (generate_data_pandas leastPick synth0 ∅ 900001).warnings = []) ∧
      (generate_data_pandas leastPick synth0 ∅ 900001).outcome =
        loopOutcome leastPick synth0 ∅ 900001 ∧
      (generate_data_pandas leastPick synth0 ∅ 900001).state =
        (genLoop leastPick synth0 (900001 : Int).toNat 0 ∅).2) :=
  ⟨by decide, C8_soft_limit_advisory leastPick synth0 ∅ 900001 (by decide)⟩

/-- C9: every generated id lies in the inclusive range 100000..999999,
that range holds exactly 900000 values — the soft-limit threshold — and
any single run requesting more than 900000 records cannot succeed. -/
theorem C9_id_space_capacity (pick : Pick) (hp : ValidPick pick)
    (s : FieldSynth) (st : Finset Nat) (count : Int) :
    (Finset.Icc ID_MIN ID_MAX).card = 900000 ∧
    SOFT_LIMIT = 900000 ∧
    (∀ rs, (generate_data_pandas pick s st count).outcome = Except.ok rs →
      ∀ r ∈ rs, ID_MIN ≤ r.id ∧ r.id ≤ ID_MAX) ∧
    (SOFT_LIMIT < count →
      (generate_data_pandas pick s st count).outcome =
        Except.error (GenErr.generationError FakerError.uniquenessException)) := by
  refine ⟨card_id_range, rfl, ?_, ?_⟩
  · intro rs hok r hr
    obtain ⟨_, _, _, hmem, _⟩ := generate_ok_inv pick hp s st count rs hok
    exact Finset.mem_Icc.mp (hmem r hr).1
  · intro hgt
    have hgt2 : (900000 : Int) < count := hgt
    exact generate_over_capacity pick hp s st count (by omega) (by omega)

/-- Witness for C9 at the concrete run with count 900001. -/
theorem C9_id_space_capacity_witness :
    ValidPick leastPick ∧
    ((Finset.Icc ID_MIN ID_MAX).card = 900000 ∧
      SOFT_LIMIT = 900000 ∧
      (∀ rs, (generate_data_pandas leastPick synth0 ∅ 900001).outcome = Except.ok rs →
        ∀ r ∈ rs, ID_MIN ≤ r.id ∧ r.id ≤ ID_MAX) ∧
      (SOFT_LIMIT < (900001 : Int) →
        (generate_data_pandas leastPick synth0 ∅ 900001).outcome =
          Except.error (GenErr.generationError FakerError.uniquenessException))) :=
  ⟨leastPick_valid, C9_id_space_capacity leastPick leastPick_valid synth0 ∅ 900001⟩

/-- C10: the allocator is process-global: over two successive calls the
ids of both returned datasets are pairwise distinct, and the identifier
capacity is consumed cumulatively across the calls. -/
theorem C10_allocator_global_across_calls (pick : Pick) (hp : ValidPick pick)
    (s1 s2 : FieldSynth) (st0 : Finset Nat) (n1 n2 : Int)
    (rs1 rs2 : List Record)
    (hok1 : (generate_data_pandas pick s1 st0 n1).outcome = Except.ok rs1)
    (hok2 : (generate_data_pandas pick s2
        (generate_data_pandas pick s1 st0 n1).state n2).outcome = Except.ok rs2) :
    ((rs1 ++ rs2).map Record.id).Nodup ∧
    ((generate_data_pandas pick s2 (generate_data_pandas pick s1 st0 n1).state n2).state
        ∩ Finset.Icc ID_MIN ID_MAX).card
      = (st0 ∩ Finset.Icc ID_MIN ID_MAX).card + n1.toNat + n2.toNat := by
  obtain ⟨_, _, h1nd, h1mem, _, h1card⟩ := generate_ok_inv pick hp s1 st0 n1 rs1 hok1
  obtain ⟨_, _, h2nd, h2mem, _, h2card⟩ := generate_ok_inv pick hp s2 _ n2 rs2 hok2
  constructor
  · rw [List.map_append, List.nodup_append]
    refine ⟨h1nd, h2nd, ?_⟩
    intro a ha1 ha2
    obtain ⟨r1, hr1, hid1⟩ := List.mem_map.mp ha1
    obtain ⟨r2, hr2, hid2⟩ := List.mem_map.mp ha2
    have hin := (h1mem r1 hr1).2.2
    have hnotin := (h2mem r2 hr2).2.1
    rw [hid1] at hin
    rw [hid2] at hnotin
    exact hnotin hin
  · rw [h2card, h1card]

/-- Records returned by the two successive witness calls for C10. -/
def c10rs1 : List Record :=
  [⟨100000, "Иван", "ООО Ромашка", "Инженер", "ivan@example.ru", "192.168.0.1", "2021-05-17", "текст"⟩,
    ⟨100001, "Иван", "ООО Ромашка", "Инженер", "ivan@example.ru", "192.168.0.1", "2021-05-17", "текст"⟩]

/-- Second batch of records for the C10 witness. -/
def c10rs2 : List Record :=
  [⟨100002, "Иван", "ООО Ромашка", "Инженер", "ivan@example.ru", "192.168.0.1", "2021-05-17", "текст"⟩,
    ⟨100003, "Иван", "ООО Ромашка", "Инженер", "ivan@example.ru", "192.168.0.1", "2021-05-17", "текст"⟩]

/-- Witness for C10: two successive calls of 2 records each. -/
theorem C10_allocator_global_across_calls_witness :
    ValidPick leastPick ∧
    (generate_data_pandas leastPick synth0 ∅ 2).outcome = Except.ok c10rs1 ∧
    (generate_data_pandas leastPick synth0
        (generate_data_pandas leastPick synth0 ∅ 2).state 2).outcome = Except.ok c10rs2 ∧
    (((c10rs1 ++ c10rs2).map Record.id).Nodup ∧
      ((generate_data_pandas leastPick synth0
            (generate_data_pandas leastPick synth0 ∅ 2).state 2).state
          ∩ Finset.Icc ID_MIN ID_MAX).card
        = ((∅ : Finset Nat) ∩ Finset.Icc ID_MIN ID_MAX).card
            + (2 : Int).toNat + (2 : Int).toNat) :=
  ⟨leastPick_valid, rfl, rfl,
    C10_allocator_global_across_calls leastPick leastPick_valid synth0 synth0
      ∅ 2 2 c10rs1 c10rs2 rfl rfl⟩

/-! ### The exporter (`save_all_formats`, src/main.py lines 53-92)

The filesystem is modelled as a map from paths to file contents plus a
set of existing directories.  File contents are modelled semantically:
the CSV file is its BOM flag (the `utf-8-sig` encoding of line 72)
together with the header row followed by one row of cells per record;
the JSON file (`orient='records'`, line 77) is the list of objects, each
an ordered list of key-value pairs; the TXT file (`df.to_string`, line
83) is the header row followed by one row per record.  Operating-system
failures are injected by an environment that decides, per path, whether
`os.makedirs` or a file write raises an `OSError` (which for filesystem
calls carries the offending path), raises some other exception, or
succeeds. -/

/-- Semantic content of one written file. -/
inductive FileContent where
  | csv (bom : Bool) (cells : List (List String))
  | json (objs : List (List (String × String)))
  | txt (cells : List (List String))

/-- The DataFrame columns, in the order of the dict literal of src/main.py
lines 33-42 (pandas preserves the key order of a list of dicts). -/
def columns : List String :=
  ["ID", "Имя", "Компания", "Должность", "Email", "IP-адрес", "Дата регистрации", "Описание"]

/-- One row of cells for a record, in column order; the integer id is
rendered in its decimal form. -/
def recordFields (r : Record) : List String :=
  [toString r.id, r.name, r.company, r.job_title, r.email, r.ip_address,
    r.registration_date, r.description]

/-- Content written by `df.to_csv(..., index=False, encoding='utf-8-sig')`:
a BOM, the header row of column names, then one row per record in
DataFrame order. -/
def csvFile (df : List Record) : FileContent :=
  FileContent.csv true (columns :: df.map recordFields)

/-- Content written by `df.to_json(..., orient='records', ...)`: an array
of objects, one per record in DataFrame order, keys in column order. -/
def jsonFile (df : List Record) : FileContent :=
  FileContent.json (df.map (fun r => columns.zip (recordFields r)))

/-- Content written by `f.write(df.to_string(index=False))`: the header
row of column names, then one row per record in DataFrame order. -/
def txtFile (df : List Record) : FileContent :=
  FileContent.txt (columns :: df.map recordFields)

/-- The field names of a written file, in the order they appear. -/
def headerOf : FileContent → List String
  | FileContent.csv _ cells => cells.headD []
  | FileContent.json objs => (objs.headD []).map Prod.fst
  | FileContent.txt cells => cells.headD []

/-- The data rows of a written file, in the order they appear. -/
def rowsOf : FileContent → List (List String)
  | FileContent.csv _ cells => cells.tail
  | FileContent.json objs => objs.map (fun o => o.map Prod.snd)
  | FileContent.txt cells => cells.tail

/-- `os.path.dirname` for the relative slash-separated paths the tool
uses: everything before the last separator, empty if there is none. -/
def dirname (p : String) : String :=
  ⟨((p.data.reverse.dropWhile (fun c => c != '/')).drop 1).reverse⟩

/-- Split a character list on the separator. -/
def splitSlashAux : List Char → List Char → List String
  | [], acc => [⟨acc.reverse⟩]
  | c :: cs, acc =>
    if c = '/' then ⟨acc.reverse⟩ :: splitSlashAux cs []
    else splitSlashAux cs (c :: acc)

/-- The directory itself and all its intermediate ancestors, as created
by `os.makedirs(..., exist_ok=True)`. -/
def ancestorsOf (p : String) : List String :=
  let parts := splitSlashAux p.data []
  (List.range parts.length).map (fun i => String.intercalate "/" (parts.take (i + 1)))

/-- The filesystem: which directories exist and what each path holds. -/
structure FS where
  dirExists : String → Bool
  files : String → Option FileContent

/-- Effect of a successful `os.makedirs(dir, exist_ok=True)`: the
directory and all intermediate ancestors exist afterwards; existing
directories are kept (idempotent, no error when already present). -/
def makedirs (fs : FS) (dir : String) : FS :=
  ⟨fun q => (ancestorsOf dir).contains q || fs.dirExists q, fs.files⟩

/-- Effect of a successful file write: the path now holds the new
content, every other path is untouched (an existing file is
overwritten). -/
def setFile (fs : FS) (p : String) (c : FileContent) : FS :=
  ⟨fs.dirExists, fun q => if q = p then some c else fs.files q⟩

/-- Outcome the operating system gives one directory-creation or write
call: success, an `OSError` (whose message, for filesystem calls, names
the offending path), or some other unexpected exception. -/
inductive OpOutcome where
  | ok
  | osFail (msg : String)
  | otherFail (msg : String)
deriving DecidableEq

/-- Failure injection environment: what the OS does for each
`os.makedirs` call and each file write, by path. -/
structure Env where
  mkdirOutcome : String → OpOutcome
  writeOutcome : String → OpOutcome

/-- Errors raised by `save_all_formats`: the re-raised `OSError` of
src/main.py lines 89-90 (the spec's StorageError, carrying the offending
path and the original message) and the `RuntimeError` of lines 91-92
(the spec's ExportError). -/
inductive SaveError where
  | storageError (path : String) (msg : String)
  | exportError (msg : String)

/-- Message prefix of the re-raised `OSError` (src/main.py line 90). -/
def osWrapMsg (m : String) : String := "Ошибка при сохранении файлов: " ++ m

/-- Message prefix of the `RuntimeError` (src/main.py line 92). -/
def otherWrapMsg (m : String) : String := "Неожиданная ошибка при сохранении: " ++ m

/-- One guarded file write inside the try-block: on success the file is
stored; on `OSError` the wrapped StorageError is raised and the
filesystem is unchanged; on any other exception the wrapped ExportError
is raised. -/
def tryWrite (env : Env) (fs : FS) (path : String) (c : FileContent) :
    FS × Except SaveError Unit :=
  match env.writeOutcome path with
  | OpOutcome.ok => (setFile fs path c, Except.ok ())
  | OpOutcome.osFail m =>
    (fs, Except.error (SaveError.storageError path (osWrapMsg m)))
  | OpOutcome.otherFail m =>
    (fs, Except.error (SaveError.exportError (otherWrapMsg m)))

/-- `save_all_formats(df, base_name)` (src/main.py lines 53-92): create
the output directory if the base name has one, then write the CSV, JSON
and TXT files in that order, stopping at the first failure; the
filesystem changes made before a failure are kept. -/
def save_all_formats (env : Env) (fs : FS) (df : List Record)
    (base_name : String) : FS × Except SaveError Unit :=
  let output_dir := dirname base_name
  let step0 : FS × Except SaveError Unit :=
    if output_dir = "" then (fs, Except.ok ())
    else
      match env.mkdirOutcome output_dir with
      | OpOutcome.ok => (makedirs fs output_dir, Except.ok ())
      | OpOutcome.osFail m =>
        (fs, Except.error (SaveError.storageError output_dir (osWrapMsg m)))
      | OpOutcome.otherFail m =>
        (fs, Except.error (SaveError.exportError (otherWrapMsg m)))
  match step0 with
  | (fs1, Except.error e) => (fs1, Except.error e)
  | (fs1, Except.ok _) =>
    match tryWrite env fs1 (base_name ++ ".csv") (csvFile df) with
    | (fs2, Except.error e) => (fs2, Except.error e)
    | (fs2, Except.ok _) =>
      match tryWrite env fs2 (base_name ++ ".json") (jsonFile df) with
      | (fs3, Except.error e) => (fs3, Except.error e)
      | (fs3, Except.ok _) => tryWrite env fs3 (base_name ++ ".txt") (txtFile df)

/-- An environment in which the operating system raises nothing. -/
def CleanEnv (env : Env) : Prop :=
  (∀ p, env.mkdirOutcome p = OpOutcome.ok) ∧ (∀ p, env.writeOutcome p = OpOutcome.ok)

/-- Environment for witnesses: every operation succeeds. -/
def env0 : Env := ⟨fun _ => OpOutcome.ok, fun _ => OpOutcome.ok⟩

/-- Filesystem for witnesses: nothing exists yet. -/
def fs0 : FS := ⟨fun _ => false, fun _ => none⟩

/-! ### Lemmas about the exporter -/

theorem append_ne_of_data_ne (base s t : String) (h : s.data ≠ t.data) :
    base ++ s ≠ base ++ t := by
  intro he
  apply h
  have hd := congrArg String.data he
  rw [String.data_append, String.data_append] at hd
  exact List.append_cancel_left hd

theorem csv_ne_json (base : String) : base ++ ".csv" ≠ base ++ ".json" :=
  append_ne_of_data_ne base _ _ (by decide)

theorem csv_ne_txt (base : String) : base ++ ".csv" ≠ base ++ ".txt" :=
  append_ne_of_data_ne base _ _ (by decide)

theorem json_ne_txt (base : String) : base ++ ".json" ≠ base ++ ".txt" :=
  append_ne_of_data_ne base _ _ (by decide)

/-- With no injected OS failure, `save_all_formats` succeeds and the final
filesystem is the three writes stacked on the directory-creation step. -/
theorem save_clean_eq (env : Env) (hc : CleanEnv env) (fs : FS)
    (df : List Record) (base : String) :
    save_all_formats env fs df base =
      (setFile (setFile (setFile
          (if dirname base = "" then fs else makedirs fs (dirname base))
          (base ++ ".csv") (csvFile df))
          (base ++ ".json") (jsonFile df))
          (base ++ ".txt") (txtFile df),
        Except.ok ()) := by
  obtain ⟨hmk, hwr⟩ := hc
  simp only [save_all_formats, tryWrite, hmk, hwr]
  by_cases hdir : dirname base = ""
  · rw [if_pos hdir, if_pos hdir]
  · rw [if_neg hdir, if_neg hdir]

theorem setFile_files_self (fs : FS) (p : String) (c : FileContent) :
    (setFile fs p c).files p = some c := by
  unfold setFile
  simp

theorem setFile_files_other (fs : FS) (p q : String) (c : FileContent)
    (h : q ≠ p) : (setFile fs p c).files q = fs.files q := by
  unfold setFile
  simp [h]

theorem zip_columns_fst (r : Record) :
    ((columns.zip (recordFields r)).map Prod.fst) = columns := rfl

theorem zip_columns_snd (r : Record) :
    ((columns.zip (recordFields r)).map Prod.snd) = recordFields r := rfl

/-- C4: with no filesystem failure, export writes all three files; the
field order is the fixed column list of the data model in every format
(CSV header, each JSON object's keys, TXT header) and the data rows of
every format are the records in generation order. -/
theorem C4_field_and_record_order (env : Env) (hc : CleanEnv env) (fs : FS)
    (df : List Record) (base : String) (_hdf : df ≠ []) :
    ∃ fs2,
      save_all_formats env fs df base = (fs2, Except.ok ()) ∧
      fs2.files (base ++ ".csv") = some (csvFile df) ∧
      fs2.files (base ++ ".json") = some (jsonFile df) ∧
      fs2.files (base ++ ".txt") = some (txtFile df) ∧
      headerOf (csvFile df) = columns ∧
      headerOf (txtFile df) = columns ∧
      (∀ o ∈ df.map (fun r => columns.zip (recordFields r)), o.map Prod.fst = columns) ∧
      rowsOf (csvFile df) = df.map recordFields ∧
      rowsOf (jsonFile df) = df.map recordFields ∧
      rowsOf (txtFile df) = df.map recordFields := by
  rw [save_clean_eq env hc fs df base]
  refine ⟨_, rfl, ?_, ?_, setFile_files_self _ _ _, rfl, rfl, ?_, rfl, ?_, rfl⟩
  · rw [setFile_files_other _ _ _ _ (csv_ne_txt base),
      setFile_files_other _ _ _ _ (csv_ne_json base),
      setFile_files_self]
  · rw [setFile_files_other _ _ _ _ (json_ne_txt base),
      setFile_files_self]
  · intro o ho
    obtain ⟨r, _, hr⟩ := List.mem_map.mp ho
    rw [← hr]
    exact zip_columns_fst r
  · show (df.map (fun r => columns.zip (recordFields r))).map (fun o => o.map Prod.snd)
      = df.map recordFields
    rw [List.map_map]
    rfl

/-- A record for the exporter witnesses. -/
def r4 : Record :=
  ⟨123456, "Анна", "АО Вектор", "Аналитик", "anna@example.ru", "10.0.0.2",
    "2022-01-01", "Описание без переносов"⟩

/-- Witness for C4: exporting one record to `out/data` with no failure. -/
theorem C4_field_and_record_order_witness :
    CleanEnv env0 ∧ ([r4] : List Record) ≠ [] ∧
    (∃ fs2,
      save_all_formats env0 fs0 [r4] "out/data" = (fs2, Except.ok ()) ∧
      fs2.files ("out/data" ++ ".csv") = some (csvFile [r4]) ∧
      fs2.files ("out/data" ++ ".json") = some (jsonFile [r4]) ∧
      fs2.files ("out/data" ++ ".txt") = some (txtFile [r4]) ∧
      headerOf (csvFile [r4]) = columns ∧
      headerOf (txtFile [r4]) = columns ∧
      (∀ o ∈ ([r4] : List Record).map (fun r => columns.zip (recordFields r)),
        o.map Prod.fst = columns) ∧
      rowsOf (csvFile [r4]) = ([r4] : List Record).map recordFields ∧
      rowsOf (jsonFile [r4]) = ([r4] : List Record).map recordFields ∧
      rowsOf (txtFile [r4]) = ([r4] : List Record).map recordFields) :=
  ⟨⟨fun _ => rfl, fun _ => rfl⟩, by simp,
    C4_field_and_record_order env0 ⟨fun _ => rfl, fun _ => rfl⟩ fs0 [r4]
      "out/data" (by simp)⟩

/-- C5: export is not atomic: when the CSV write succeeds and the JSON
write raises an `OSError`, the call fails with the wrapped StorageError
but the CSV file just written stays on the filesystem; nothing is rolled
back or cleaned up, and the TXT file is never written. -/
theorem C5_export_not_atomic (env : Env) (fs : FS) (df : List Record)
    (base : String)
    (hmk : ∀ p, env.mkdirOutcome p = OpOutcome.ok)
    (hcsv : env.writeOutcome (base ++ ".csv") = OpOutcome.ok)
    (m : String)
    (hjson : env.writeOutcome (base ++ ".json") = OpOutcome.osFail m) :
    ∃ fs2,
      save_all_formats env fs df base =
        (fs2, Except.error (SaveError.storageError (base ++ ".json") (osWrapMsg m))) ∧
      fs2.files (base ++ ".csv") = some (csvFile df) ∧
      fs2.files (base ++ ".json") = fs.files (base ++ ".json") ∧
      fs2.files (base ++ ".txt") = fs.files (base ++ ".txt") := by
  simp only [save_all_formats, tryWrite, hmk, hcsv, hjson]
  by_cases hdir : dirname base = ""
  · rw [if_pos hdir]
    refine ⟨_, rfl, setFile_files_self _ _ _, ?_, ?_⟩
    · rw [setFile_files_other _ _ _ _ (Ne.symm (csv_ne_json base))]
    · rw [setFile_files_other _ _ _ _ (Ne.symm (csv_ne_txt base))]
  · rw [if_neg hdir]
    refine ⟨_, rfl, setFile_files_self _ _ _, ?_, ?_⟩
    · rw [setFile_files_other _ _ _ _ (Ne.symm (csv_ne_json base))]
      rfl
    · rw [setFile_files_other _ _ _ _ (Ne.symm (csv_ne_txt base))]
      rfl

/-- Environment for the C5 witness: only the JSON write fails, with an
`OSError`. -/
def envJsonOsFail : Env :=
  ⟨fun _ => OpOutcome.ok,
    fun p =>
      if p = "out/data" ++ ".json" then
        OpOutcome.osFail "No space left on device: out/data.json"
      else OpOutcome.ok⟩

/-- Witness for C5: CSV succeeds, JSON fails, CSV stays on disk. -/
theorem C5_export_not_atomic_witness :
    (∀ p, envJsonOsFail.mkdirOutcome p = OpOutcome.ok) ∧
    envJsonOsFail.writeOutcome ("out/data" ++ ".csv") = OpOutcome.ok ∧
    envJsonOsFail.writeOutcome ("out/data" ++ ".json") =
      OpOutcome.osFail "No space left on device: out/data.json" ∧
    (∃ fs2,
      save_all_formats envJsonOsFail fs0 [r4] "out/data" =
        (fs2, Except.error (SaveError.storageError ("out/data" ++ ".json")
          (osWrapMsg "No space left on device: out/data.json"))) ∧
      fs2.files ("out/data" ++ ".csv") = some (csvFile [r4]) ∧
      fs2.files ("out/data" ++ ".json") = fs0.files ("out/data" ++ ".json") ∧
      fs2.files ("out/data" ++ ".txt") = fs0.files ("out/data" ++ ".txt")) :=
  ⟨fun _ => rfl, by decide, by decide,
    C5_export_not_atomic envJsonOsFail fs0 [r4] "out/data" (fun _ => rfl)
      (by decide) _ (by decide)⟩

/-- C6: when the base path has a directory part that `os.makedirs`
accepts, the directory and all intermediate ancestors exist after export
whatever the write steps do (creation precedes the writes), and with no
injected failure the whole export succeeds on every starting filesystem —
in particular on one where the directory already exists (idempotence). -/
theorem C6_directory_creation (env : Env) (fs : FS) (df : List Record)
    (base : String) (hdir : dirname base ≠ "")
    (hmk : env.mkdirOutcome (dirname base) = OpOutcome.ok) :
    (∀ d ∈ ancestorsOf (dirname base),
      ((save_all_formats env fs df base).1).dirExists d = true) ∧
    (CleanEnv env → ∃ fs2, save_all_formats env fs df base = (fs2, Except.ok ())) := by
  constructor
  · intro d hd
    have hmd : (makedirs fs (dirname base)).dirExists d = true := by
      unfold makedirs
      simp [hd]
    simp only [save_all_formats, tryWrite, hmk]
    rw [if_neg hdir]
    cases env.writeOutcome (base ++ ".csv") <;>
      cases env.writeOutcome (base ++ ".json") <;>
        cases env.writeOutcome (base ++ ".txt") <;>
          simp [setFile, hmd]
  · intro hc
    exact ⟨_, save_clean_eq env hc fs df base⟩

/-- Witness for C6: exporting to `out/data` from an empty filesystem. -/
theorem C6_directory_creation_witness :
    dirname "out/data" ≠ "" ∧
    env0.mkdirOutcome (dirname "out/data") = OpOutcome.ok ∧
    ((∀ d ∈ ancestorsOf (dirname "out/data"),
        ((save_all_formats env0 fs0 [r4] "out/data").1).dirExists d = true) ∧
      (CleanEnv env0 →
        ∃ fs2, save_all_formats env0 fs0 [r4] "out/data" = (fs2, Except.ok ()))) :=
  ⟨by decide, rfl,
    C6_directory_creation env0 fs0 [r4] "out/data" (by decide) rfl⟩

/-- C7: whichever step first fails, an `OSError` from the operating
system (directory creation or any of the three writes) surfaces as the
StorageError carrying the failing path, while any other unexpected
failure surfaces as the distinct ExportError. -/
theorem C7_error_classification (env : Env) (fs : FS) (df : List Record)
    (base : String) (m : String) :
    (dirname base ≠ "" → env.mkdirOutcome (dirname base) = OpOutcome.osFail m →
      (save_all_formats env fs df base).2 =
        Except.error (SaveError.storageError (dirname base) (osWrapMsg m))) ∧
    (dirname base ≠ "" → env.mkdirOutcome (dirname base) = OpOutcome.otherFail m →
      (save_all_formats env fs df base).2 =
        Except.error (SaveError.exportError (otherWrapMsg m))) ∧
    ((dirname base = "" ∨ env.mkdirOutcome (dirname base) = OpOutcome.ok) →
      env.writeOutcome (base ++ ".csv") = OpOutcome.osFail m →
      (save_all_formats env fs df base).2 =
        Except.error (SaveError.storageError (base ++ ".csv") (osWrapMsg m))) ∧
    ((dirname base = "" ∨ env.mkdirOutcome (dirname base) = OpOutcome.ok) →
      env.writeOutcome (base ++ ".csv") = OpOutcome.otherFail m →
      (save_all_formats env fs df base).2 =
        Except.error (SaveError.exportError (otherWrapMsg m))) ∧
    ((dirname base = "" ∨ env.mkdirOutcome (dirname base) = OpOutcome.ok) →
      env.writeOutcome (base ++ ".csv") = OpOutcome.ok →
      env.writeOutcome (base ++ ".json") = OpOutcome.osFail m →
      (save_all_formats env fs df base).2 =
        Except.error (SaveError.storageError (base ++ ".json") (osWrapMsg m))) ∧
    ((dirname base = "" ∨ env.mkdirOutcome (dirname base) = OpOutcome.ok) →
      env.writeOutcome (base ++ ".csv") = OpOutcome.ok →
      env.writeOutcome (base ++ ".json") = OpOutcome.otherFail m →
      (save_all_formats env fs df base).2 =
        Except.error (SaveError.exportError (otherWrapMsg m))) ∧
    ((dirname base = "" ∨ env.mkdirOutcome (dirname base) = OpOutcome.ok) →
      env.writeOutcome (base ++ ".csv") = OpOutcome.ok →
      env.writeOutcome (base ++ ".json") = OpOutcome.ok →
      env.writeOutcome (base ++ ".txt") = OpOutcome.osFail m →
      (save_all_formats env fs df base).2 =
        Except.error (SaveError.storageError (base ++ ".txt") (osWrapMsg m))) ∧
    ((dirname base = "" ∨ env.mkdirOutcome (dirname base) = OpOutcome.ok) →
      env.writeOutcome (base ++ ".csv") = OpOutcome.ok →
      env.writeOutcome (base ++ ".json") = OpOutcome.ok →
      env.writeOutcome (base ++ ".txt") = OpOutcome.otherFail m →
      (save_all_formats env fs df base).2 =
        Except.error (SaveError.exportError (otherWrapMsg m))) := by
  refine ⟨?_, ?_, ?_, ?_, ?_, ?_, ?_, ?_⟩
  · intro hdir hf
    simp only [save_all_formats, hf]
    rw [if_neg hdir]
  · intro hdir hf
    simp only [save_all_formats, hf]
    rw [if_neg hdir]
  · intro hpre hf
    simp only [save_all_formats, tryWrite, hf]
    rcases hpre with hdir | hmk
    · rw [if_pos hdir]
    · by_cases hdir : dirname base = ""
      · rw [if_pos hdir]
      · simp only [hmk]
        rw [if_neg hdir]
  · intro hpre hf
    simp only [save_all_formats, tryWrite, hf]
    rcases hpre with hdir | hmk
    · rw [if_pos hdir]
    · by_cases hdir : dirname base = ""
      · rw [if_pos hdir]
      · simp only [hmk]
        rw [if_neg hdir]
  · intro hpre hcsv hf
    simp only [save_all_formats, tryWrite, hcsv, hf]
    rcases hpre with hdir | hmk
    · rw [if_pos hdir]
    · by_cases hdir : dirname base = ""
      · rw [if_pos hdir]
      · simp only [hmk]
        rw [if_neg hdir]
  · intro hpre hcsv hf
    simp only [save_all_formats, tryWrite, hcsv, hf]
    rcases hpre with hdir | hmk
    · rw [if_pos hdir]
    · by_cases hdir : dirname base = ""
      · rw [if_pos hdir]
      · simp only [hmk]
        rw [if_neg hdir]
  · intro hpre hcsv hjson hf
    simp only [save_all_formats, tryWrite, hcsv, hjson, hf]
    rcases hpre with hdir | hmk
    · rw [if_pos hdir]
    · by_cases hdir : dirname base = ""
      · rw [if_pos hdir]
      · simp only [hmk]
        rw [if_neg hdir]
  · intro hpre hcsv hjson hf
    simp only [save_all_formats, tryWrite, hcsv, hjson, hf]
    rcases hpre with hdir | hmk
    · rw [if_pos hdir]
    · by_cases hdir : dirname base = ""
      · rw [if_pos hdir]
      · simp only [hmk]
        rw [if_neg hdir]

/-- Environment for the C7 witness: directory creation raises an
`OSError`. -/
def envMkdirFail : Env :=
  ⟨fun _ => OpOutcome.osFail "Permission denied: out",
    fun _ => OpOutcome.ok⟩

/-- Witness for C7: a directory-creation `OSError` surfaces as the
StorageError naming the directory. -/
theorem C7_error_classification_witness :
    dirname "out/data" ≠ "" ∧
    envMkdirFail.mkdirOutcome (dirname "out/data") =
      OpOutcome.osFail "Permission denied: out" ∧
    (save_all_formats envMkdirFail fs0 [r4] "out/data").2 =
      Except.error (SaveError.storageError (dirname "out/data")
        (osWrapMsg "Permission denied: out")) :=
  ⟨by decide, rfl,
    (C7_error_classification envMkdirFail fs0 [r4] "out/data"
      "Permission denied: out").1 (by decide) rfl⟩

end FakeDataGen
